import Mathlib

/-!
Verification of the museqa / msa repository's pairwise and phylogeny core.

This file gives a shallow embedding of the parts of the source relevant to
the frozen claims:

* the sequential Needleman-Wunsch backend `align_pair`
  (src/unnamed/part_002, the pairwise module's sequential algorithm);
* the distance-matrix accessor `msa::pairwise::manager::operator[]`
  (src/inc/parser.hpp) together with `utils::combinations` (src/inc/utils.hpp);
* the scoring-table catalog (src/src/pairwise/table.cu);
* the neighbor-joining reduction operator `closest`
  (src/src/phylogeny/njoining/njoining.cpp);
* the pipeline runner (src/src/pipeline.hpp);
* the helpers `divceil` and `align` (src/src/pairwise.cuh).

Sequences are lists of symbol codes (natural numbers); scores are embedded as
unbounded integers, which agree with the source's arithmetic on the integral
score values the claims are about.
-/

namespace Museqa

/-- Modelled from the spec: the value of `sequence::padding` (declared in the
repository's sequence header, which is not under src/).  The spec fixes a
25-symbol alphabet `A C T G R N D Q E H I L K M F P S W Y V B J Z X *` in
which the padding symbol `*` is the last symbol, code 24. -/
def padding : Nat := 24

/-- The inner loop of `align_pair` (src/unnamed/part_002, lines 52-64).  It
rolls the DP line in place left to right; `done` holds the previous row's
value diagonally up-left, `left` the freshly written value to the left, the
two lists are the remaining symbols of the second sequence and the remaining
old line entries above them.  A padding symbol in the second sequence copies
the value from the left, exactly as the source's `if` skips the max. -/
def nwInner (a : Nat) (M : Nat → Nat → Int) (p : Int) :
    Int → Int → List Nat → List Int → List Int
  | _, _, [], _ => []
  | _, _, _ :: _, [] => []
  | done, left, c :: cs, above :: rest =>
      let value := if c ≠ padding then
          max (done + M a c) (max (left - p) (above - p)) else left
      value :: nwInner a M p above value cs rest

/-- The outer loop of `align_pair` (src/unnamed/part_002, lines 38-66).  Row
`i` stops the whole algorithm when the first sequence hits padding; otherwise
the 0-th column of the new row is `(i + 1) * -penalty` and the rest of the
row comes from `nwInner`. -/
def nwRows (M : Nat → Nat → Int) (p : Int) (two : List Nat) :
    List Nat → Nat → List Int → List Int
  | [], _, line => line
  | a :: rest, i, line =>
      if a = padding then line
      else nwRows M p two rest (i + 1)
        ((((i : Int) + 1) * (-p)) :: nwInner a M p (line.headD 0) (((i : Int) + 1) * (-p)) two line.tail)

/-- The sequential CPU backend `align_pair` (src/unnamed/part_002).  The line
is initialized with `j * -penalty`, the rows are rolled by `nwRows`, and the
returned score is `line[two.length]`. -/
def align_pair (one two : List Nat) (M : Nat → Nat → Int) (p : Int) : Int :=
  (nwRows M p two one 0 ((List.range (two.length + 1)).map fun (j : Nat) => (j : Int) * (-p))).getD
    two.length 0

/-- The Needleman-Wunsch dynamic-programming table of the specification: row 0
and column 0 are `-index * penalty`, and an interior cell is the maximum of
the diagonal step plus the substitution score and the two gap steps.  This
definition follows the spec's recurrence, to be compared with `align_pair`. -/
def nwCell (M : Nat → Nat → Int) (p : Int) (s t : List Nat) : Nat → Nat → Int
  | 0, j => (j : Int) * (-p)
  | i + 1, 0 => ((i : Int) + 1) * (-p)
  | i + 1, j + 1 =>
      max (nwCell M p s t i j + M (s.getD i 0) (t.getD j 0))
        (max (nwCell M p s t (i + 1) j - p) (nwCell M p s t i (j + 1) - p))
  termination_by i j => (i, j)

/-- The DP row `i` of the specification's table, as a list over columns
`0 … t.length`.  Used to relate `align_pair`'s rolling line to `nwCell`. -/
def rowList (M : Nat → Nat → Int) (p : Int) (s t : List Nat) (i : Nat) : List Int :=
  (List.range (t.length + 1)).map (nwCell M p s t i)

/-- The function `utils::combinations` (src/inc/utils.hpp): the number of
unordered pairs over `count` objects, `(count * (count - 1)) >> 1`.  The
accessor in parser.hpp calls it under its later name `utils::nchoose`. -/
def combinations (count : Nat) : Nat := (count * (count - 1)) >>> 1

/-- The accessor `msa::pairwise::manager::operator[]` (src/inc/parser.hpp):
the pair score is looked up in the strict-lower-triangle buffer at offset
`combinations (max i j) + min i j`, and a diagonal access yields 0. -/
def manager_get (buf : List Int) (i j : Nat) : Int :=
  let mn := min i j
  let mx := max i j
  if mn ≠ mx then buf.getD (combinations mx + mn) 0 else 0

/-- Raw scoring matrix index 0, "default", from `table_data` in table.cu. -/
def default_table : List (List Int) := [
  [1, -1, -1, -1, -1, -1, -1, -1, -1, -1, -1, -1, -1, -1, -1, -1, -1, -1, -1, -1, -1, -1, -1, -1, -1],
  [-1, 1, -1, -1, -1, -1, -1, -1, -1, -1, -1, -1, -1, -1, -1, -1, -1, -1, -1, -1, -1, -1, -1, -1, -1],
  [-1, -1, 1, -1, -1, -1, -1, -1, -1, -1, -1, -1, -1, -1, -1, -1, -1, -1, -1, -1, -1, -1, -1, -1, -1],
  [-1, -1, -1, 1, -1, -1, -1, -1, -1, -1, -1, -1, -1, -1, -1, -1, -1, -1, -1, -1, -1, -1, -1, -1, -1],
  [-1, -1, -1, -1, 1, -1, -1, -1, -1, -1, -1, -1, -1, -1, -1, -1, -1, -1, -1, -1, -1, -1, -1, -1, -1],
  [-1, -1, -1, -1, -1, 1, -1, -1, -1, -1, -1, -1, -1, -1, -1, -1, -1, -1, -1, -1, -1, -1, -1, -1, -1],
  [-1, -1, -1, -1, -1, -1, 1, -1, -1, -1, -1, -1, -1, -1, -1, -1, -1, -1, -1, -1, -1, -1, -1, -1, -1],
  [-1, -1, -1, -1, -1, -1, -1, 1, -1, -1, -1, -1, -1, -1, -1, -1, -1, -1, -1, -1, -1, -1, -1, -1, -1],
  [-1, -1, -1, -1, -1, -1, -1, -1, 1, -1, -1, -1, -1, -1, -1, -1, -1, -1, -1, -1, -1, -1, -1, -1, -1],
  [-1, -1, -1, -1, -1, -1, -1, -1, -1, 1, -1, -1, -1, -1, -1, -1, -1, -1, -1, -1, -1, -1, -1, -1, -1],
  [-1, -1, -1, -1, -1, -1, -1, -1, -1, -1, 1, -1, -1, -1, -1, -1, -1, -1, -1, -1, -1, -1, -1, -1, -1],
  [-1, -1, -1, -1, -1, -1, -1, -1, -1, -1, -1, 1, -1, -1, -1, -1, -1, -1, -1, -1, -1, -1, -1, -1, -1],
  [-1, -1, -1, -1, -1, -1, -1, -1, -1, -1, -1, -1, 1, -1, -1, -1, -1, -1, -1, -1, -1, -1, -1, -1, -1],
  [-1, -1, -1, -1, -1, -1, -1, -1, -1, -1, -1, -1, -1, 1, -1, -1, -1, -1, -1, -1, -1, -1, -1, -1, -1],
  [-1, -1, -1, -1, -1, -1, -1, -1, -1, -1, -1, -1, -1, -1, 1, -1, -1, -1, -1, -1, -1, -1, -1, -1, -1],
  [-1, -1, -1, -1, -1, -1, -1, -1, -1, -1, -1, -1, -1, -1, -1, 1, -1, -1, -1, -1, -1, -1, -1, -1, -1],
  [-1, -1, -1, -1, -1, -1, -1, -1, -1, -1, -1, -1, -1, -1, -1, -1, 1, -1, -1, -1, -1, -1, -1, -1, -1],
  [-1, -1, -1, -1, -1, -1, -1, -1, -1, -1, -1, -1, -1, -1, -1, -1, -1, 1, -1, -1, -1, -1, -1, -1, -1],
  [-1, -1, -1, -1, -1, -1, -1, -1, -1, -1, -1, -1, -1, -1, -1, -1, -1, -1, 1, -1, -1, -1, -1, -1, -1],
  [-1, -1, -1, -1, -1, -1, -1, -1, -1, -1, -1, -1, -1, -1, -1, -1, -1, -1, -1, 1, -1, -1, -1, -1, -1],
  [-1, -1, -1, -1, -1, -1, -1, -1, -1, -1, -1, -1, -1, -1, -1, -1, -1, -1, -1, -1, 1, -1, -1, -1, -1],
  [-1, -1, -1, -1, -1, -1, -1, -1, -1, -1, -1, -1, -1, -1, -1, -1, -1, -1, -1, -1, -1, 1, -1, -1, -1],
  [-1, -1, -1, -1, -1, -1, -1, -1, -1, -1, -1, -1, -1, -1, -1, -1, -1, -1, -1, -1, -1, -1, 1, -1, -1],
  [-1, -1, -1, -1, -1, -1, -1, -1, -1, -1, -1, -1, -1, -1, -1, -1, -1, -1, -1, -1, -1, -1, -1, -1, -1],
  [-1, -1, -1, -1, -1, -1, -1, -1, -1, -1, -1, -1, -1, -1, -1, -1, -1, -1, -1, -1, -1, -1, -1, -1, 0]]

/-- Raw scoring matrix index 1, "blosum62", from `table_data` in table.cu. -/
def blosum62 : List (List Int) := [
  [4, 0, 0, 0, -1, -2, -2, -1, -1, -2, -1, -1, -1, -1, -2, -1, 1, -3, -2, 0, -2, -1, -1, -1, -4],
  [0, 9, -1, -3, -3, -3, -3, -3, -4, -3, -1, -1, -3, -1, -2, -3, -1, -2, -2, -1, -3, -1, -3, -1, -4],
  [0, -1, 5, -2, -1, 0, -1, -1, -1, -2, -1, -1, -1, -1, -2, -1, 1, -2, -2, 0, -1, -1, -1, -1, -4],
  [0, -3, -2, 6, -2, 0, -1, -2, -2, -2, -4, -4, -2, -3, -3, -2, 0, -2, -3, -3, -1, -4, -2, -1, -4],
  [-1, -3, -1, -2, 5, 0, -2, 1, 0, 0, -3, -2, 2, -1, -3, -2, -1, -3, -2, -3, -1, -2, 0, -1, -4],
  [-2, -3, 0, 0, 0, 6, 1, 0, 0, 1, -3, -3, 0, -2, -3, -2, 1, -4, -2, -3, 4, -3, 0, -1, -4],
  [-2, -3, -1, -1, -2, 1, 6, 0, 2, -1, -3, -4, -1, -3, -3, -1, 0, -4, -3, -3, 4, -3, 1, -1, -4],
  [-1, -3, -1, -2, 1, 0, 0, 5, 2, 0, -3, -2, 1, 0, -3, -1, 0, -2, -1, -2, 0, -2, 4, -1, -4],
  [-1, -4, -1, -2, 0, 0, 2, 2, 5, 0, -3, -3, 1, -2, -3, -1, 0, -3, -2, -2, 1, -3, 4, -1, -4],
  [-2, -3, -2, -2, 0, 1, -1, 0, 0, 8, -3, -3, -1, -2, -1, -2, -1, -2, 2, -3, 0, -3, 0, -1, -4],
  [-1, -1, -1, -4, -3, -3, -3, -3, -3, -3, 4, 2, -3, 1, 0, -3, -2, -3, -1, 3, -3, 3, -3, -1, -4],
  [-1, -1, -1, -4, -2, -3, -4, -2, -3, -3, 2, 4, -2, 2, 0, -3, -2, -2, -1, 1, -4, 3, -3, -1, -4],
  [-1, -3, -1, -2, 2, 0, -1, 1, 1, -1, -3, -2, 5, -1, -3, -1, 0, -3, -2, -2, 0, -3, 1, -1, -4],
  [-1, -1, -1, -3, -1, -2, -3, 0, -2, -2, 1, 2, -1, 5, 0, -2, -1, -1, -1, 1, -3, 2, -1, -1, -4],
  [-2, -2, -2, -3, -3, -3, -3, -3, -3, -1, 0, 0, -3, 0, 6, -4, -2, 1, 3, -1, -3, 0, -3, -1, -4],
  [-1, -3, -1, -2, -2, -2, -1, -1, -1, -2, -3, -3, -1, -2, -4, 7, -1, -4, -3, -2, -2, -3, -1, -1, -4],
  [1, -1, 1, 0, -1, 1, 0, 0, 0, -1, -2, -2, 0, -1, -2, -1, 4, -3, -2, -2, 0, -2, 0, -1, -4],
  [-3, -2, -2, -2, -3, -4, -4, -2, -3, -2, -3, -2, -3, -1, 1, -4, -3, 11, 2, -3, -4, -2, -2, -1, -4],
  [-2, -2, -2, -3, -2, -2, -3, -1, -2, 2, -1, -1, -2, -1, 3, -3, -2, 2, 7, -1, -3, -1, -2, -1, -4],
  [0, -1, 0, -3, -3, -3, -3, -2, -2, -3, 3, 1, -2, 1, -1, -2, -2, -3, -1, 4, -3, 2, -2, -1, -4],
  [-2, -3, -1, -1, -1, 4, 4, 0, 1, 0, -3, -4, 0, -3, -3, -2, 0, -4, -3, -3, 4, -3, 0, -1, -4],
  [-1, -1, -1, -4, -2, -3, -3, -2, -3, -3, 3, 3, -3, 2, 0, -3, -2, -2, -1, 2, -3, 3, -3, -1, -4],
  [-1, -3, -1, -2, 0, 0, 1, 4, 4, 0, -3, -3, 1, -1, -3, -1, 0, -2, -2, -2, 0, -3, 4, -1, -4],
  [-1, -1, -1, -1, -1, -1, -1, -1, -1, -1, -1, -1, -1, -1, -1, -1, -1, -1, -1, -1, -1, -1, -1, -1, -4],
  [-4, -4, -4, -4, -4, -4, -4, -4, -4, -4, -4, -4, -4, -4, -4, -4, -4, -4, -4, -4, -4, -4, -4, -4, 0]]

/-- Raw scoring matrix index 2, "blosum45", from `table_data` in table.cu. -/
def blosum45 : List (List Int) := [
  [5, -1, 0, -1, -2, -1, -2, -1, 0, -2, -1, -1, -1, -1, -2, -1, 1, -2, -2, 0, -1, -1, -1, -1, -5],
  [-1, 12, -1, -3, -3, -2, -3, -3, -3, -3, -3, -2, -3, -2, -2, -4, -1, -5, -3, -1, -2, -2, -3, -1, -5],
  [0, -1, 5, -1, -1, 0, -1, -1, -2, -2, -1, -1, -1, -1, -1, -1, 2, -3, -1, 0, 0, -1, -1, -1, -5],
  [-1, -3, -1, 6, 0, 0, 2, 2, -2, 0, -3, -2, 1, -2, -3, 0, 0, -3, -2, -3, 1, -3, 5, -1, -5],
  [-2, -3, -1, 0, 7, 0, -1, 1, -2, 0, -3, -2, 3, -1, -2, -2, -1, -2, -1, -2, -1, -3, 1, -1, -5],
  [-1, -2, 0, 0, 0, 6, 2, 0, 0, 1, -2, -3, 0, -2, -2, -2, 1, -4, -2, -3, 5, -3, 0, -1, -5],
  [-2, -3, -1, 2, -1, 2, 7, 0, -1, 0, -4, -3, 0, -3, -4, -1, 0, -4, -2, -3, 6, -3, 1, -1, -5],
  [-1, -3, -1, 2, 1, 0, 0, 6, -2, 1, -2, -2, 1, 0, -4, -1, 0, -2, -1, -3, 0, -2, 4, -1, -5],
  [0, -3, -2, -2, -2, 0, -1, -2, 7, -2, -4, -3, -2, -2, -3, -2, 0, -2, -3, -3, -1, -4, -2, -1, -5],
  [-2, -3, -2, 0, 0, 1, 0, 1, -2, 10, -3, -2, -1, 0, -2, -2, -1, -3, 2, -3, 0, -2, 0, -1, -5],
  [-1, -3, -1, -3, -3, -2, -4, -2, -4, -3, 5, 2, -3, 2, 0, -2, -2, -2, 0, 3, -3, 4, -3, -1, -5],
  [-1, -2, -1, -2, -2, -3, -3, -2, -3, -2, 2, 5, -3, 2, 1, -3, -3, -2, 0, 1, -3, 4, -2, -1, -5],
  [-1, -3, -1, 1, 3, 0, 0, 1, -2, -1, -3, -3, 5, -1, -3, -1, -1, -2, -1, -2, 0, -3, 1, -1, -5],
  [-1, -2, -1, -2, -1, -2, -3, 0, -2, 0, 2, 2, -1, 6, 0, -2, -2, -2, 0, 1, -2, 2, -1, -1, -5],
  [-2, -2, -1, -3, -2, -2, -4, -4, -3, -2, 0, 1, -3, 0, 8, -3, -2, 1, 3, 0, -3, 1, -3, -1, -5],
  [-1, -4, -1, 0, -2, -2, -1, -1, -2, -2, -2, -3, -1, -2, -3, 9, -1, -3, -3, -3, -2, -3, -1, -1, -5],
  [1, -1, 2, 0, -1, 1, 0, 0, 0, -1, -2, -3, -1, -2, -2, -1, 4, -4, -2, -1, 0, -2, 0, -1, -5],
  [-2, -5, -3, -3, -2, -4, -4, -2, -2, -3, -2, -2, -2, -2, 1, -3, -4, 15, 3, -3, -4, -2, -2, -1, -5],
  [-2, -3, -1, -2, -1, -2, -2, -1, -3, 2, 0, 0, -1, 0, 3, -3, -2, 3, 8, -1, -2, 0, -2, -1, -5],
  [0, -1, 0, -3, -2, -3, -3, -3, -3, -3, 3, 1, -2, 1, 0, -3, -1, -3, -1, 5, -3, 2, -3, -1, -5],
  [-1, -2, 0, 1, -1, 5, 6, 0, -1, 0, -3, -3, 0, -2, -3, -2, 0, -4, -2, -3, 5, -3, 1, -1, -5],
  [-1, -2, -1, -3, -3, -3, -3, -2, -4, -2, 4, 4, -3, 2, 1, -3, -2, -2, 0, 2, -3, 4, -2, -1, -5],
  [-1, -3, -1, 5, 1, 0, 1, 4, -2, 0, -3, -2, 1, -1, -3, -1, 0, -2, -2, -3, 1, -2, 5, -1, -5],
  [-1, -1, -1, -1, -1, -1, -1, -1, -1, -1, -1, -1, -1, -1, -1, -1, -1, -1, -1, -1, -1, -1, -1, -1, -5],
  [-5, -5, -5, -5, -5, -5, -5, -5, -5, -5, -5, -5, -5, -5, -5, -5, -5, -5, -5, -5, -5, -5, -5, -5, 0]]

/-- Raw scoring matrix index 3, "blosum50", from `table_data` in table.cu. -/
def blosum50 : List (List Int) := [
  [5, -1, -3, -2, -2, -1, -2, -1, -1, 0, -1, -2, -1, -1, -3, -1, 1, 0, -2, 0, -2, -2, -1, -1, -5],
  [-1, 13, -5, -3, -4, -2, -4, -3, -3, -3, -2, -2, -3, -2, -2, -4, -1, -1, -3, -1, -3, -2, -3, -1, -5],
  [-3, -5, 15, -3, -3, -4, -5, -1, -3, -3, -3, -2, -3, -1, 1, -4, -4, -3, 2, -3, -5, -2, -2, -1, -5],
  [-2, -3, -3, 10, 0, 1, -1, 1, 0, -2, -4, -3, 0, -1, -1, -2, -1, -2, 2, -4, 0, -3, 0, -1, -5],
  [-2, -4, -3, 0, 7, -1, -2, 1, 0, -3, -4, -3, 3, -2, -3, -3, -1, -1, -1, -3, -1, -3, 0, -1, -5],
  [-1, -2, -4, 1, -1, 7, 2, 0, 0, 0, -3, -4, 0, -2, -4, -2, 1, 0, -2, -3, 5, -4, 0, -1, -5],
  [-2, -4, -5, -1, -2, 2, 8, 0, 2, -1, -4, -4, -1, -4, -5, -1, 0, -1, -3, -4, 6, -4, 1, -1, -5],
  [-1, -3, -1, 1, 1, 0, 0, 7, 2, -2, -3, -2, 2, 0, -4, -1, 0, -1, -1, -3, 0, -3, 4, -1, -5],
  [-1, -3, -3, 0, 0, 0, 2, 2, 6, -3, -4, -3, 1, -2, -3, -1, -1, -1, -2, -3, 1, -3, 5, -1, -5],
  [0, -3, -3, -2, -3, 0, -1, -2, -3, 8, -4, -4, -2, -3, -4, -2, 0, -2, -3, -4, -1, -4, -2, -1, -5],
  [-1, -2, -3, -4, -4, -3, -4, -3, -4, -4, 5, 2, -3, 2, 0, -3, -3, -1, -1, 4, -4, 4, -3, -1, -5],
  [-2, -2, -2, -3, -3, -4, -4, -2, -3, -4, 2, 5, -3, 3, 1, -4, -3, -1, -1, 1, -4, 4, -3, -1, -5],
  [-1, -3, -3, 0, 3, 0, -1, 2, 1, -2, -3, -3, 6, -2, -4, -1, 0, -1, -2, -3, 0, -3, 1, -1, -5],
  [-1, -2, -1, -1, -2, -2, -4, 0, -2, -3, 2, 3, -2, 7, 0, -3, -2, -1, 0, 1, -3, 2, -1, -1, -5],
  [-3, -2, 1, -1, -3, -4, -5, -4, -3, -4, 0, 1, -4, 0, 8, -4, -3, -2, 4, -1, -4, 1, -4, -1, -5],
  [-1, -4, -4, -2, -3, -2, -1, -1, -1, -2, -3, -4, -1, -3, -4, 10, -1, -1, -3, -3, -2, -3, -1, -1, -5],
  [1, -1, -4, -1, -1, 1, 0, 0, -1, 0, -3, -3, 0, -2, -3, -1, 5, 2, -2, -2, 0, -3, 0, -1, -5],
  [0, -1, -3, -2, -1, 0, -1, -1, -1, -2, -1, -1, -1, -1, -2, -1, 2, 5, -2, 0, 0, -1, -1, -1, -5],
  [-2, -3, 2, 2, -1, -2, -3, -1, -2, -3, -1, -1, -2, 0, 4, -3, -2, -2, 8, -1, -3, -1, -2, -1, -5],
  [0, -1, -3, -4, -3, -3, -4, -3, -3, -4, 4, 1, -3, 1, -1, -3, -2, 0, -1, 5, -3, 2, -3, -1, -5],
  [-2, -3, -5, 0, -1, 5, 6, 0, 1, -1, -4, -4, 0, -3, -4, -2, 0, 0, -3, -3, 6, -4, 1, -1, -5],
  [-2, -2, -2, -3, -3, -4, -4, -3, -3, -4, 4, 4, -3, 2, 1, -3, -3, -1, -1, 2, -4, 4, -3, -1, -5],
  [-1, -3, -2, 0, 0, 0, 1, 4, 5, -2, -3, -3, 1, -1, -4, -1, 0, -1, -2, -3, 1, -3, 5, -1, -5],
  [-1, -1, -1, -1, -1, -1, -1, -1, -1, -1, -1, -1, -1, -1, -1, -1, -1, -1, -1, -1, -1, -1, -1, -1, -5],
  [-5, -5, -5, -5, -5, -5, -5, -5, -5, -5, -5, -5, -5, -5, -5, -5, -5, -5, -5, -5, -5, -5, -5, -5, 0]]

/-- Raw scoring matrix index 4, "blosum80", from `table_data` in table.cu. -/
def blosum80 : List (List Int) := [
  [5, -1, 0, -1, -2, -2, -2, -1, 0, -2, -2, -2, -1, -1, -3, -1, 1, -3, -2, 0, -2, -2, -1, -1, -6],
  [-1, 9, -1, -5, -4, -3, -4, -4, -4, -4, -2, -2, -4, -2, -3, -4, -2, -3, -3, -1, -4, -2, -4, -1, -6],
  [0, -1, 5, -1, -1, 0, -1, -1, -2, -2, -1, -2, -1, -1, -2, -2, 1, -4, -2, 0, -1, -1, -1, -1, -6],
  [-1, -5, -1, 6, -1, -1, 1, 2, -3, 0, -4, -4, 1, -2, -4, -2, 0, -4, -3, -3, 1, -4, 5, -1, -6],
  [-2, -4, -1, -1, 6, -1, -2, 1, -3, 0, -3, -3, 2, -2, -4, -2, -1, -4, -3, -3, -1, -3, 0, -1, -6],
  [-2, -3, 0, -1, -1, 6, 1, 0, -1, 0, -4, -4, 0, -3, -4, -3, 0, -4, -3, -4, 5, -4, 0, -1, -6],
  [-2, -4, -1, 1, -2, 1, 6, -1, -2, -2, -4, -5, -1, -4, -4, -2, -1, -6, -4, -4, 5, -5, 1, -1, -6],
  [-1, -4, -1, 2, 1, 0, -1, 6, -2, 1, -3, -3, 1, 0, -4, -2, 0, -3, -2, -3, 0, -3, 4, -1, -6],
  [0, -4, -2, -3, -3, -1, -2, -2, 6, -3, -5, -4, -2, -4, -4, -3, -1, -4, -4, -4, -1, -5, -3, -1, -6],
  [-2, -4, -2, 0, 0, 0, -2, 1, -3, 8, -4, -3, -1, -2, -2, -3, -1, -3, 2, -4, -1, -4, 0, -1, -6],
  [-2, -2, -1, -4, -3, -4, -4, -3, -5, -4, 5, 1, -3, 1, -1, -4, -3, -3, -2, 3, -4, 3, -4, -1, -6],
  [-2, -2, -2, -4, -3, -4, -5, -3, -4, -3, 1, 4, -3, 2, 0, -3, -3, -2, -2, 1, -4, 3, -3, -1, -6],
  [-1, -4, -1, 1, 2, 0, -1, 1, -2, -1, -3, -3, 5, -2, -4, -1, -1, -4, -3, -3, -1, -3, 1, -1, -6],
  [-1, -2, -1, -2, -2, -3, -4, 0, -4, -2, 1, 2, -2, 6, 0, -3, -2, -2, -2, 1, -3, 2, -1, -1, -6],
  [-3, -3, -2, -4, -4, -4, -4, -4, -4, -2, -1, 0, -4, 0, 6, -4, -3, 0, 3, -1, -4, 0, -4, -1, -6],
  [-1, -4, -2, -2, -2, -3, -2, -2, -3, -3, -4, -3, -1, -3, -4, 8, -1, -5, -4, -3, -2, -4, -2, -1, -6],
  [1, -2, 1, 0, -1, 0, -1, 0, -1, -1, -3, -3, -1, -2, -3, -1, 5, -4, -2, -2, 0, -3, 0, -1, -6],
  [-3, -3, -4, -4, -4, -4, -6, -3, -4, -3, -3, -2, -4, -2, 0, -5, -4, 11, 2, -3, -5, -3, -3, -1, -6],
  [-2, -3, -2, -3, -3, -3, -4, -2, -4, 2, -2, -2, -3, -2, 3, -4, -2, 2, 7, -2, -3, -2, -3, -1, -6],
  [0, -1, 0, -3, -3, -4, -4, -3, -4, -4, 3, 1, -3, 1, -1, -3, -2, -3, -2, 4, -4, 2, -3, -1, -6],
  [-2, -4, -1, 1, -1, 5, 5, 0, -1, -1, -4, -4, -1, -3, -4, -2, 0, -5, -3, -4, 5, -4, 0, -1, -6],
  [-2, -2, -1, -4, -3, -4, -5, -3, -5, -4, 3, 3, -3, 2, 0, -4, -3, -3, -2, 2, -4, 3, -3, -1, -6],
  [-1, -4, -1, 5, 0, 0, 1, 4, -3, 0, -4, -3, 1, -1, -4, -2, 0, -3, -3, -3, 0, -3, 5, -1, -6],
  [-1, -1, -1, -1, -1, -1, -1, -1, -1, -1, -1, -1, -1, -1, -1, -1, -1, -1, -1, -1, -1, -1, -1, -1, -6],
  [-6, -6, -6, -6, -6, -6, -6, -6, -6, -6, -6, -6, -6, -6, -6, -6, -6, -6, -6, -6, -6, -6, -6, -6, 0]]

/-- Raw scoring matrix index 5, "blosum90", from `table_data` in table.cu. -/
def blosum90 : List (List Int) := [
  [5, -1, 0, -1, -2, -2, -3, -1, 0, -2, -2, -2, -1, -2, -3, -1, 1, -4, -3, -1, -2, -2, -1, -1, -6],
  [-1, 9, -2, -6, -5, -4, -5, -4, -4, -5, -2, -2, -4, -2, -3, -4, -2, -4, -4, -2, -4, -2, -5, -1, -6],
  [0, -2, 6, -1, -2, 0, -2, -1, -3, -2, -1, -2, -1, -1, -3, -2, 1, -4, -2, -1, -1, -2, -1, -1, -6],
  [-1, -6, -1, 6, -1, -1, 1, 2, -3, -1, -4, -4, 0, -3, -5, -2, -1, -5, -4, -3, 1, -4, 5, -1, -6],
  [-2, -5, -2, -1, 6, -1, -3, 1, -3, 0, -4, -3, 2, -2, -4, -3, -1, -4, -3, -3, -2, -3, 0, -1, -6],
  [-2, -4, 0, -1, -1, 7, 1, 0, -1, 0, -4, -4, 0, -3, -4, -3, 0, -5, -3, -4, 5, -4, -1, -1, -6],
  [-3, -5, -2, 1, -3, 1, 7, -1, -2, -2, -5, -5, -1, -4, -5, -3, -1, -6, -4, -5, 5, -5, 1, -1, -6],
  [-1, -4, -1, 2, 1, 0, -1, 7, -3, 1, -4, -3, 1, 0, -4, -2, -1, -3, -3, -3, -1, -3, 5, -1, -6],
  [0, -4, -3, -3, -3, -1, -2, -3, 6, -3, -5, -5, -2, -4, -5, -3, -1, -4, -5, -5, -2, -5, -3, -1, -6],
  [-2, -5, -2, -1, 0, 0, -2, 1, -3, 8, -4, -4, -1, -3, -2, -3, -2, -3, 1, -4, -1, -4, 0, -1, -6],
  [-2, -2, -1, -4, -4, -4, -5, -4, -5, -4, 5, 1, -4, 1, -1, -4, -3, -4, -2, 3, -5, 3, -4, -1, -6],
  [-2, -2, -2, -4, -3, -4, -5, -3, -5, -4, 1, 5, -3, 2, 0, -4, -3, -3, -2, 0, -5, 4, -4, -1, -6],
  [-1, -4, -1, 0, 2, 0, -1, 1, -2, -1, -4, -3, 6, -2, -4, -2, -1, -5, -3, -3, -1, -3, 1, -1, -6],
  [-2, -2, -1, -3, -2, -3, -4, 0, -4, -3, 1, 2, -2, 7, -1, -3, -2, -2, -2, 0, -4, 2, -2, -1, -6],
  [-3, -3, -3, -5, -4, -4, -5, -4, -5, -2, -1, 0, -4, -1, 7, -4, -3, 0, 3, -2, -4, 0, -4, -1, -6],
  [-1, -4, -2, -2, -3, -3, -3, -2, -3, -3, -4, -4, -2, -3, -4, 8, -2, -5, -4, -3, -3, -4, -2, -1, -6],
  [1, -2, 1, -1, -1, 0, -1, -1, -1, -2, -3, -3, -1, -2, -3, -2, 5, -4, -3, -2, 0, -3, -1, -1, -6],
  [-4, -4, -4, -5, -4, -5, -6, -3, -4, -3, -4, -3, -5, -2, 0, -5, -4, 11, 2, -3, -6, -3, -4, -1, -6],
  [-3, -4, -2, -4, -3, -3, -4, -3, -5, 1, -2, -2, -3, -2, 3, -4, -3, 2, 8, -3, -4, -2, -3, -1, -6],
  [-1, -2, -1, -3, -3, -4, -5, -3, -5, -4, 3, 0, -3, 0, -2, -3, -2, -3, -3, 5, -4, 1, -3, -1, -6],
  [-2, -4, -1, 1, -2, 5, 5, -1, -2, -1, -5, -5, -1, -4, -4, -3, 0, -6, -4, -4, 5, -5, 0, -1, -6],
  [-2, -2, -2, -4, -3, -4, -5, -3, -5, -4, 3, 4, -3, 2, 0, -4, -3, -3, -2, 1, -5, 4, -4, -1, -6],
  [-1, -5, -1, 5, 0, -1, 1, 5, -3, 0, -4, -4, 1, -2, -4, -2, -1, -4, -3, -3, 0, -4, 5, -1, -6],
  [-1, -1, -1, -1, -1, -1, -1, -1, -1, -1, -1, -1, -1, -1, -1, -1, -1, -1, -1, -1, -1, -1, -1, -1, -6],
  [-6, -6, -6, -6, -6, -6, -6, -6, -6, -6, -6, -6, -6, -6, -6, -6, -6, -6, -6, -6, -6, -6, -6, -6, 0]]

/-- Raw scoring matrix index 6, "pam250", from `table_data` in table.cu. -/
def pam250 : List (List Int) := [
  [2, -2, 1, 0, -2, 0, 0, 0, 1, -1, -1, -2, -1, -1, -3, 1, 1, -6, -3, 0, 0, -1, 0, -1, -8],
  [-2, 12, -2, -5, -4, -4, -5, -5, -3, -3, -2, -6, -5, -5, -4, -3, 0, -8, 0, -2, -4, -5, -5, -1, -8],
  [1, -2, 3, 0, -1, 0, 0, -1, 0, -1, 0, -2, 0, -1, -3, 0, 1, -5, -3, 0, 0, -1, -1, -1, -8],
  [0, -5, 0, 4, -1, 1, 3, 2, 0, 1, -2, -3, 0, -2, -5, -1, 0, -7, -4, -2, 3, -3, 3, -1, -8],
  [-2, -4, -1, -1, 6, 0, -1, 1, -3, 2, -2, -3, 3, 0, -4, 0, 0, 2, -4, -2, -1, -3, 0, -1, -8],
  [0, -4, 0, 1, 0, 2, 2, 1, 0, 2, -2, -3, 1, -2, -3, 0, 1, -4, -2, -2, 2, -3, 1, -1, -8],
  [0, -5, 0, 3, -1, 2, 4, 2, 1, 1, -2, -4, 0, -3, -6, -1, 0, -7, -4, -2, 3, -3, 3, -1, -8],
  [0, -5, -1, 2, 1, 1, 2, 4, -1, 3, -2, -2, 1, -1, -5, 0, -1, -5, -4, -2, 1, -2, 3, -1, -8],
  [1, -3, 0, 0, -3, 0, 1, -1, 5, -2, -3, -4, -2, -3, -5, 0, 1, -7, -5, -1, 0, -4, 0, -1, -8],
  [-1, -3, -1, 1, 2, 2, 1, 3, -2, 6, -2, -2, 0, -2, -2, 0, -1, -3, 0, -2, 1, -2, 2, -1, -8],
  [-1, -2, 0, -2, -2, -2, -2, -2, -3, -2, 5, 2, -2, 2, 1, -2, -1, -5, -1, 4, -2, 3, -2, -1, -8],
  [-2, -6, -2, -3, -3, -3, -4, -2, -4, -2, 2, 6, -3, 4, 2, -3, -3, -2, -1, 2, -3, 5, -3, -1, -8],
  [-1, -5, 0, 0, 3, 1, 0, 1, -2, 0, -2, -3, 5, 0, -5, -1, 0, -3, -4, -2, 1, -3, 0, -1, -8],
  [-1, -5, -1, -2, 0, -2, -3, -1, -3, -2, 2, 4, 0, 6, 0, -2, -2, -4, -2, 2, -2, 3, -2, -1, -8],
  [-3, -4, -3, -5, -4, -3, -6, -5, -5, -2, 1, 2, -5, 0, 9, -5, -3, 0, 7, -1, -4, 2, -5, -1, -8],
  [1, -3, 0, -1, 0, 0, -1, 0, 0, 0, -2, -3, -1, -2, -5, 6, 1, -6, -5, -1, -1, -2, 0, -1, -8],
  [1, 0, 1, 0, 0, 1, 0, -1, 1, -1, -1, -3, 0, -2, -3, 1, 2, -2, -3, -1, 0, -2, 0, -1, -8],
  [-6, -8, -5, -7, 2, -4, -7, -5, -7, -3, -5, -2, -3, -4, 0, -6, -2, 17, 0, -6, -5, -3, -6, -1, -8],
  [-3, 0, -3, -4, -4, -2, -4, -4, -5, 0, -1, -1, -4, -2, 7, -5, -3, 0, 10, -2, -3, -1, -4, -1, -8],
  [0, -2, 0, -2, -2, -2, -2, -2, -1, -2, 4, 2, -2, 2, -1, -1, -1, -6, -2, 4, -2, 2, -2, -1, -8],
  [0, -4, 0, 3, -1, 2, 3, 1, 0, 1, -2, -3, 1, -2, -4, -1, 0, -5, -3, -2, 3, -3, 2, -1, -8],
  [-1, -5, -1, -3, -3, -3, -3, -2, -4, -2, 3, 5, -3, 3, 2, -2, -2, -3, -1, 2, -3, 5, -2, -1, -8],
  [0, -5, -1, 3, 0, 1, 3, 3, 0, 2, -2, -3, 0, -2, -5, 0, 0, -6, -4, -2, 2, -2, 3, -1, -8],
  [-1, -1, -1, -1, -1, -1, -1, -1, -1, -1, -1, -1, -1, -1, -1, -1, -1, -1, -1, -1, -1, -1, -1, -1, -8],
  [-8, -8, -8, -8, -8, -8, -8, -8, -8, -8, -8, -8, -8, -8, -8, -8, -8, -8, -8, -8, -8, -8, -8, -8, 0]]

/-- The accessor `scoring_table::operator[]` (src/inc/parser.hpp): a cartesian
read of the raw 25 by 25 matrix. -/
def scoring_table_get (m : List (List Int)) (a b : Nat) : Int :=
  (m.getD a []).getD b 0

/-- A named scoring table: the raw matrix together with its gap penalty, as
in the `local_table` struct of table.cu. -/
structure local_table where
  data : List (List Int)
  penalty : Int
deriving DecidableEq, Repr

/-- The catalog `table_dispatcher` (table.cu, lines 254-262): the mapping from
canonical names to raw matrices and penalties. -/
def table_dispatcher : List (String × local_table) := [
  ("default",  ⟨default_table, 1⟩),
  ("blosum62", ⟨blosum62, 4⟩),
  ("blosum45", ⟨blosum45, 5⟩),
  ("blosum50", ⟨blosum50, 5⟩),
  ("blosum80", ⟨blosum80, 6⟩),
  ("blosum90", ⟨blosum90, 6⟩),
  ("pam250",   ⟨pam250, 8⟩)]

/-- The factory `pairwise::scoring_table::make` (table.cu, lines 315-321): it
looks the name up in `table_dispatcher` and returns the selected table, or
throws the unknown-table exception when the name is absent.  The `dispatcher`
container itself is not under src/; its key-lookup behavior is modelled from
the spec, which calls it a process-wide mapping from canonical names that
fails when a name is absent. -/
def scoring_table_make (name : String) : Except String local_table :=
  match table_dispatcher.lookup name with
  | some t => Except.ok t
  | none => Except.error ("unknown pairwise scoring table " ++ name)

/-- Modelled from the spec: the `njoining::joinable` join-pair candidate type
(declared in phylogeny/njoining/njoining.cuh, which is not under src/).  The
spec describes a candidate pair `(u, v)` together with its Q value, carried
in the `distance` field under the sign convention of the source. -/
structure joinable where
  u : Nat
  v : Nat
  distance : Int
deriving DecidableEq, Repr

/-- The reduction operator `museqa::phylogeny::njoining::closest`
(njoining.cpp, lines 26-29): `a.distance > b.distance ? a : b`. -/
def closest (a b : joinable) : joinable :=
  if a.distance > b.distance then a else b

/-- The reducer as the claim words it: the candidate with the larger Q value,
ties broken by the smaller first index and then the smaller second index.
This definition follows the claim, to be compared with `closest`. -/
def closest_claim (a b : joinable) : joinable :=
  if a.distance > b.distance then a
  else if b.distance > a.distance then b
  else if a.u < b.u then a
  else if b.u < a.u then b
  else if a.v ≤ b.v then a else b

/-- A pipeline module as the runner sees it (pipeline.hpp): its pre-flight
`check` outcome and its stage body, taking the predecessor conduit to the
produced conduit.  The io manager argument of the source is fixed throughout
one `run`, so it is absorbed into the two fields. -/
structure pl_module (α : Type) where
  check : Bool
  body : α → α

/-- The loop of `pipeline::runner::verify` (pipeline.hpp, lines 238-245):
false as soon as some module check fails, true otherwise. -/
def runner_verify {α : Type} (ms : List (pl_module α)) : Bool :=
  ms.all fun m => m.check

/-- The loop of `pipeline::runner::execute` (pipeline.hpp, lines 253-261):
each module body receives the conduit moved out of its predecessor. -/
def runner_execute {α : Type} (ms : List (pl_module α)) (pipe : α) : α :=
  ms.foldl (fun pipe m => m.body pipe) pipe

/-- The method `pipeline::runner::run` (pipeline.hpp, lines 216-228): verify
every module before executing any, and throw the pipeline-verification
exception when verification fails.  `init` stands for the default-constructed
pipe handed to the first stage. -/
def runner_run {α : Type} (ms : List (pl_module α)) (init : α) : Except String α :=
  if runner_verify ms then Except.ok (runner_execute ms init)
  else Except.error "pipeline verification failed"

/-- The helper `divceil` (src/src/pairwise.cuh, lines 109-112): truncating C
division plus one when the remainder is nonzero.  `Int.tdiv` and `Int.tmod`
round toward zero exactly as C99 integer division does. -/
def divceil (a b : Int) : Int :=
  Int.tdiv a b + (if Int.tmod a b ≠ 0 then 1 else 0)

/-- The helper `align` (src/src/pairwise.cuh, lines 120-123): the size rounded
up to a multiple of the alignment. -/
def align (size alignment : Int) : Int :=
  divceil size alignment * alignment

end Museqa

namespace Museqa

/-- C6: the distance-matrix accessor is symmetric and zero on the diagonal. -/
theorem C6_manager_symmetric (buf : List Int) (i j : Nat) :
    manager_get buf i j = manager_get buf j i ∧ manager_get buf i i = 0 := by
  constructor
  · simp [manager_get, Nat.min_comm, Nat.max_comm]
  · simp [manager_get]

/-- C3: a lower-triangle access at indices min < max < N reads the linear
store at offset max * (max - 1) / 2 + min, and a diagonal access yields 0. -/
theorem C3_manager_offset (buf : List Int) (N mn mx i : Nat)
    (h1 : mn < mx) (h2 : mx < N) :
    manager_get buf mx mn = buf.getD (mx * (mx - 1) / 2 + mn) 0
    ∧ manager_get buf i i = 0 := by
  constructor
  · have hmin : min mx mn = mn := Nat.min_eq_right (Nat.le_of_lt h1)
    have hmax : max mx mn = mx := Nat.max_eq_left (Nat.le_of_lt h1)
    have hne : mn ≠ mx := Nat.ne_of_lt h1
    simp [manager_get, hmin, hmax, hne, combinations, Nat.shiftRight_eq_div_pow]
  · simp [manager_get]

/-- C3 witness: the accessor evaluated at a concrete triangular store. -/
theorem C3_manager_offset_witness :
    manager_get [10, 20, 30, 40, 50, 60] 3 1 = [10, 20, 30, 40, 50, 60].getD (3 * (3 - 1) / 2 + 1) 0 :=
  (C3_manager_offset [10, 20, 30, 40, 50, 60] 4 1 3 0 (by decide) (by decide)).1

/-- C5 counterexample: the reducer is not commutative; two distinct candidates
with equal distances reduce to the second argument either way around. -/
theorem C5_closest_not_commutative :
    ¬ closest ⟨0, 2, 9⟩ ⟨1, 3, 9⟩ = closest ⟨1, 3, 9⟩ ⟨0, 2, 9⟩ := by decide

/-- C5 amended: the reducer `closest` is a pure function of its two arguments
and is associative; commutativity fails on equal distances. -/
theorem C5_closest_associative (a b c : joinable) :
    closest (closest a b) c = closest a (closest b c) := by
  unfold closest
  split_ifs <;> first | rfl | (exfalso; omega)

/-- C4 counterexample: on equal distances the source reducer keeps its second
argument, while the claimed tie-break by smaller first index keeps the first. -/
theorem C4_closest_no_tiebreak :
    closest ⟨0, 1, 5⟩ ⟨2, 3, 5⟩ ≠ closest_claim ⟨0, 1, 5⟩ ⟨2, 3, 5⟩ := by decide

/-- C4 amended: the reducer returns one of its two arguments, namely one whose
distance is the larger of the two; when the distances are equal it returns
the second argument, with no tie-break on the indices. -/
theorem C4_closest_larger (a b : joinable) :
    (closest a b = a ∨ closest a b = b)
    ∧ (closest a b).distance = max a.distance b.distance
    ∧ (a.distance = b.distance → closest a b = b) := by
  unfold closest
  split_ifs with h
  · exact ⟨Or.inl rfl, by omega, fun he => by omega⟩
  · exact ⟨Or.inr rfl, by omega, fun _ => rfl⟩

/-- C4 witness: a concrete tie reduced by the theorem. -/
theorem C4_closest_larger_witness : closest ⟨1, 2, 7⟩ ⟨3, 4, 7⟩ = ⟨3, 4, 7⟩ :=
  (C4_closest_larger ⟨1, 2, 7⟩ ⟨3, 4, 7⟩).2.2 rfl

/-- C8: the runner checks every module before running any; a failed check
produces the pipeline-verification error and no stage body output, otherwise
the stages run in order with each conduit folded into the next stage. -/
theorem C8_runner_spec (α : Type) (ms : List (pl_module α)) (init : α) :
    ((∀ m ∈ ms, m.check = true) →
      runner_run ms init = Except.ok (ms.foldl (fun pipe m => m.body pipe) init))
    ∧ ((∃ m ∈ ms, m.check = false) →
      runner_run ms init = Except.error "pipeline verification failed") := by
  constructor
  · intro h
    have hv : runner_verify ms = true := List.all_eq_true.mpr h
    simp [runner_run, hv, runner_execute]
  · rintro ⟨m, hm, hc⟩
    have hv : runner_verify ms = false := List.all_eq_false.mpr ⟨m, hm, by simp [hc]⟩
    simp [runner_run, hv]

/-- C8 witness: a two-stage pipeline with all checks passing, and one with a
failing check, evaluated concretely through the theorem. -/
theorem C8_runner_spec_witness :
    runner_run [⟨true, fun n => n + 1⟩, ⟨true, fun n => n * 2⟩] (0 : Nat) = Except.ok 2
    ∧ runner_run [⟨true, fun n => n + 1⟩, ⟨false, fun n => n * 2⟩] (0 : Nat)
        = Except.error "pipeline verification failed" :=
  ⟨(C8_runner_spec Nat [⟨true, fun n => n + 1⟩, ⟨true, fun n => n * 2⟩] 0).1 (by decide),
   (C8_runner_spec Nat [⟨true, fun n => n + 1⟩, ⟨false, fun n => n * 2⟩] 0).2
     ⟨⟨false, fun n => n * 2⟩, by simp, rfl⟩⟩

/-- C9: aligning the empty sequence against the single symbol A under the
blosum62 table with penalty 4 yields the single-gap score -4, in either
argument order, and the computation is total on the empty input. -/
theorem C9_empty_alignment :
    align_pair [0] [] (scoring_table_get blosum62) 4 = -4
    ∧ align_pair [] [0] (scoring_table_get blosum62) 4 = -4 := by
  constructor <;> rfl

end Museqa

namespace Museqa

/-- C7: the catalog succeeds exactly on the seven canonical names, returns the
blosum62 matrix with penalty 4 for "blosum62", and fails on any other name
with the unknown-table error. -/
theorem C7_make_catalog (name : String) :
    ((∃ t, scoring_table_make name = Except.ok t) ↔
      name ∈ ["default", "blosum62", "blosum45", "blosum50", "blosum80", "blosum90", "pam250"])
    ∧ (name ∉ ["default", "blosum62", "blosum45", "blosum50", "blosum80", "blosum90", "pam250"] →
        scoring_table_make name = Except.error ("unknown pairwise scoring table " ++ name))
    ∧ scoring_table_make "blosum62" = Except.ok ⟨blosum62, 4⟩ := by
  by_cases h0 : name = "default"
  · subst h0; refine ⟨?_, ?_, rfl⟩ <;> simp [scoring_table_make, table_dispatcher, List.lookup]
  by_cases h1 : name = "blosum62"
  · subst h1; refine ⟨?_, ?_, rfl⟩ <;> simp [scoring_table_make, table_dispatcher, List.lookup]
  by_cases h2 : name = "blosum45"
  · subst h2; refine ⟨?_, ?_, rfl⟩ <;> simp [scoring_table_make, table_dispatcher, List.lookup]
  by_cases h3 : name = "blosum50"
  · subst h3; refine ⟨?_, ?_, rfl⟩ <;> simp [scoring_table_make, table_dispatcher, List.lookup]
  by_cases h4 : name = "blosum80"
  · subst h4; refine ⟨?_, ?_, rfl⟩ <;> simp [scoring_table_make, table_dispatcher, List.lookup]
  by_cases h5 : name = "blosum90"
  · subst h5; refine ⟨?_, ?_, rfl⟩ <;> simp [scoring_table_make, table_dispatcher, List.lookup]
  by_cases h6 : name = "pam250"
  · subst h6; refine ⟨?_, ?_, rfl⟩ <;> simp [scoring_table_make, table_dispatcher, List.lookup]
  have e0 : (name == "default") = false := beq_eq_false_iff_ne.mpr h0
  have e1 : (name == "blosum62") = false := beq_eq_false_iff_ne.mpr h1
  have e2 : (name == "blosum45") = false := beq_eq_false_iff_ne.mpr h2
  have e3 : (name == "blosum50") = false := beq_eq_false_iff_ne.mpr h3
  have e4 : (name == "blosum80") = false := beq_eq_false_iff_ne.mpr h4
  have e5 : (name == "blosum90") = false := beq_eq_false_iff_ne.mpr h5
  have e6 : (name == "pam250") = false := beq_eq_false_iff_ne.mpr h6
  have hl : table_dispatcher.lookup name = none := by
    simp [table_dispatcher, List.lookup, e0, e1, e2, e3, e4, e5, e6]
  refine ⟨?_, ?_, rfl⟩
  · simp only [scoring_table_make, hl]
    constructor
    · rintro ⟨t, ht⟩; cases ht
    · intro h; simp [h0, h1, h2, h3, h4, h5, h6] at h
  · intro _; simp [scoring_table_make, hl]

/-- C7 witness: the lookups of the claim evaluated concretely. -/
theorem C7_make_catalog_witness :
    scoring_table_make "blosum62" = Except.ok ⟨blosum62, 4⟩
    ∧ scoring_table_make "blosum99"
        = Except.error ("unknown pairwise scoring table " ++ "blosum99") :=
  ⟨(C7_make_catalog "blosum62").2.2, (C7_make_catalog "blosum99").2.1 (by decide)⟩

/-- C10: divceil is the ceiling of the division of a nonnegative dividend by a
positive divisor, and align rounds a nonnegative size up to the least multiple
of a positive alignment. -/
theorem C10_divceil_align (a b size w : Int) (ha : 0 ≤ a) (hb : 0 < b)
    (hs : 0 ≤ size) (hw : 0 < w) :
    (a ≤ divceil a b * b ∧ (divceil a b - 1) * b < a)
    ∧ (w ∣ align size w ∧ size ≤ align size w
        ∧ ∀ m : Int, w ∣ m → size ≤ m → align size w ≤ m) := by
  have key : ∀ x y : Int, 0 ≤ x → 0 < y → x ≤ divceil x y * y ∧ (divceil x y - 1) * y < x := by
    intro x y hx hy
    have heq : y * x.tdiv y + x.tmod y = x := Int.tdiv_add_tmod x y
    have hr0 : 0 ≤ x.tmod y := Int.tmod_nonneg y hx
    have hr1 : x.tmod y < y := Int.tmod_lt_of_pos x hy
    have hq : x.tdiv y * y = x - x.tmod y := by linear_combination heq
    have hexp1 : (x.tdiv y + 1) * y = x.tdiv y * y + y := by ring
    have hexp2 : (x.tdiv y - 1) * y = x.tdiv y * y - y := by ring
    have hexp3 : (x.tdiv y + 1 - 1) * y = x.tdiv y * y := by ring
    by_cases hz : x.tmod y = 0
    · simp only [divceil, hz, ne_eq, not_true_eq_false, if_false, add_zero]
      constructor <;> linarith
    · have hrpos : 0 < x.tmod y := lt_of_le_of_ne hr0 (Ne.symm hz)
      simp only [divceil, if_pos hz]
      constructor <;> linarith
  refine ⟨key a b ha hb, ?_, ?_, ?_⟩
  · exact ⟨divceil size w, mul_comm _ _⟩
  · exact (key size w hs hw).1
  · rintro m ⟨c, rfl⟩ hm
    have h2 : (divceil size w - 1) * w < c * w := by
      calc (divceil size w - 1) * w < size := (key size w hs hw).2
        _ ≤ w * c := hm
        _ = c * w := mul_comm _ _
    have h3 : divceil size w - 1 < c := lt_of_mul_lt_mul_right h2 (le_of_lt hw)
    have hle : divceil size w ≤ c := by omega
    calc align size w = divceil size w * w := rfl
      _ ≤ c * w := mul_le_mul_of_nonneg_right hle (le_of_lt hw)
      _ = w * c := mul_comm _ _

/-- C10 witness: ceiling division at concrete values through the theorem. -/
theorem C10_divceil_align_witness :
    (7 : Int) ≤ divceil 7 3 * 3 ∧ (divceil 7 3 - 1) * 3 < 7 :=
  (C10_divceil_align 7 3 7 4 (by decide) (by decide) (by decide) (by decide)).1

end Museqa

namespace Museqa

theorem nwInner_length (a : Nat) (M : Nat → Nat → Int) (p : Int) :
    ∀ (cs : List Nat) (rest : List Int) (done left : Int),
      (nwInner a M p done left cs rest).length = min cs.length rest.length := by
  intro cs
  induction cs with
  | nil => intro rest done left; simp [nwInner]
  | cons c cs ih =>
    intro rest done left
    cases rest with
    | nil => simp [nwInner]
    | cons r rest =>
      simp only [nwInner, List.length_cons, ih]
      omega

theorem rowList_length (M : Nat → Nat → Int) (p : Int) (s t : List Nat) (i : Nat) :
    (rowList M p s t i).length = t.length + 1 := by
  simp [rowList]

theorem rowList_getElem (M : Nat → Nat → Int) (p : Int) (s t : List Nat) (i j : Nat)
    (h : j < (rowList M p s t i).length) :
    (rowList M p s t i)[j] = nwCell M p s t i j := by
  simp [rowList]

theorem nwInner_spec (M : Nat → Nat → Int) (p : Int) (s t : List Nat) (i : Nat)
    (ht : ∀ c ∈ t, c ≠ padding) :
    ∀ d j, j + d = t.length →
      nwInner (s.getD i 0) M p (nwCell M p s t i j) (nwCell M p s t (i + 1) j)
          (t.drop j) ((rowList M p s t i).drop (j + 1))
        = (rowList M p s t (i + 1)).drop (j + 1) := by
  intro d
  induction d with
  | zero =>
    intro j hj
    have hj0 : j = t.length := by omega
    subst hj0
    have h1 : t.drop t.length = [] := List.drop_eq_nil_of_le (le_refl _)
    have h2 : (rowList M p s t (i + 1)).drop (t.length + 1) = [] :=
      List.drop_eq_nil_of_le (by rw [rowList_length])
    have h3 : (rowList M p s t i).drop (t.length + 1) = [] :=
      List.drop_eq_nil_of_le (by rw [rowList_length])
    rw [h1, h2, h3]
    rfl
  | succ d ih =>
    intro j hj
    have hjn : j < t.length := by omega
    have hrl : j + 1 < (rowList M p s t i).length := by rw [rowList_length]; omega
    have hrl2 : j + 1 < (rowList M p s t (i + 1)).length := by rw [rowList_length]; omega
    rw [List.drop_eq_getElem_cons hjn, List.drop_eq_getElem_cons hrl,
      List.drop_eq_getElem_cons hrl2]
    have hc : t[j] ≠ padding := ht _ (List.getElem_mem hjn)
    have hgd : t.getD j 0 = t[j] := List.getD_eq_getElem t 0 hjn
    simp only [nwInner, rowList_getElem, if_pos hc, ne_eq, hc, not_false_eq_true, if_true]
    have hcell : nwCell M p s t (i + 1) (j + 1)
        = max (nwCell M p s t i j + M (s.getD i 0) t[j])
            (max (nwCell M p s t (i + 1) j - p) (nwCell M p s t i (j + 1) - p)) := by
      rw [show nwCell M p s t (i + 1) (j + 1)
          = max (nwCell M p s t i j + M (s.getD i 0) (t.getD j 0))
              (max (nwCell M p s t (i + 1) j - p) (nwCell M p s t i (j + 1) - p)) from by
            simp [nwCell], hgd]
    have htail := ih (j + 1) (by omega)
    rw [hcell] at htail
    rw [htail, hcell]

end Museqa

namespace Museqa

theorem rowList_headD (M : Nat → Nat → Int) (p : Int) (s t : List Nat) (i : Nat) :
    (rowList M p s t i).headD 0 = nwCell M p s t i 0 := by
  simp [rowList, List.range_succ_eq_map]

theorem rowList_cons (M : Nat → Nat → Int) (p : Int) (s t : List Nat) (i : Nat) :
    rowList M p s t i = nwCell M p s t i 0 :: (rowList M p s t i).drop 1 := by
  have h0 : 0 < (rowList M p s t i).length := by rw [rowList_length]; omega
  have h := List.drop_eq_getElem_cons h0
  rw [List.drop_zero, rowList_getElem] at h
  simpa using h

theorem nwRow_step (M : Nat → Nat → Int) (p : Int) (s t : List Nat) (i : Nat)
    (ht : ∀ c ∈ t, c ≠ padding) :
    (((i : Int) + 1) * (-p)) :: nwInner (s.getD i 0) M p ((rowList M p s t i).headD 0)
        (((i : Int) + 1) * (-p)) t ((rowList M p s t i).tail)
      = rowList M p s t (i + 1) := by
  have hleft : ((i : Int) + 1) * (-p) = nwCell M p s t (i + 1) 0 := by simp [nwCell]
  have htail : (rowList M p s t i).tail = (rowList M p s t i).drop 1 := (List.drop_one _).symm
  have hspec := nwInner_spec M p s t i ht t.length 0 (by omega)
  rw [List.drop_zero] at hspec
  simp only [Nat.zero_add] at hspec
  rw [rowList_headD, htail, hleft, hspec]
  exact (rowList_cons M p s t (i + 1)).symm

theorem nwRows_spec (M : Nat → Nat → Int) (p : Int) (s t : List Nat)
    (hs : ∀ c ∈ s, c ≠ padding) (ht : ∀ c ∈ t, c ≠ padding) :
    ∀ k i, i + k = s.length →
      nwRows M p t (s.drop i) i (rowList M p s t i) = rowList M p s t s.length := by
  intro k
  induction k with
  | zero =>
    intro i hi
    have hi0 : i = s.length := by omega
    subst hi0
    rw [List.drop_eq_nil_of_le (le_refl _)]
    rfl
  | succ k ih =>
    intro i hi
    have hilen : i < s.length := by omega
    rw [List.drop_eq_getElem_cons hilen]
    have hnp : ¬ s[i] = padding := hs _ (List.getElem_mem hilen)
    have hgd : s.getD i 0 = s[i] := List.getD_eq_getElem s 0 hilen
    simp only [nwRows, if_neg hnp]
    rw [← hgd, nwRow_step M p s t i ht]
    exact ih (i + 1) (by omega)

/-- C1: on padding-free sequences with the first at least as long as the
second, the sequential backend `align_pair` returns exactly the cell
`(one.length, two.length)` of the claimed Needleman-Wunsch recurrence. -/
theorem C1_align_pair_needleman (one two : List Nat) (M : Nat → Nat → Int) (p : Int)
    (h1 : ∀ c ∈ one, c ≠ padding) (h2 : ∀ c ∈ two, c ≠ padding)
    (hlen : two.length ≤ one.length) :
    align_pair one two M p = nwCell M p one two one.length two.length := by
  unfold align_pair
  have hinit : (List.range (two.length + 1)).map (fun (j : Nat) => (j : Int) * (-p))
      = rowList M p one two 0 := by
    unfold rowList
    refine List.map_congr_left ?_
    intro j hj
    simp [nwCell]
  rw [hinit]
  have hrows := nwRows_spec M p one two h1 h2 one.length 0 (by omega)
  rw [List.drop_zero] at hrows
  rw [hrows]
  rw [List.getD_eq_getElem _ _ (by rw [rowList_length]; omega), rowList_getElem]

/-- C1 witness: a concrete padding-free alignment evaluated through the
theorem, with the hypotheses discharged by computation. -/
theorem C1_align_pair_needleman_witness :
    align_pair [0, 2, 1] [0, 1] (scoring_table_get blosum62) 4
      = nwCell (scoring_table_get blosum62) 4 [0, 2, 1] [0, 1] 3 2 :=
  C1_align_pair_needleman [0, 2, 1] [0, 1] (scoring_table_get blosum62) 4
    (by decide) (by decide) (by decide)

end Museqa

namespace Museqa

theorem getLastD_eq_getD (l : List Int) (d : Int) :
    l.getLastD d = l.getD (l.length - 1) d := by
  rw [List.getLastD_eq_getLast?, List.getLast?_eq_getElem?, List.getD_eq_getElem?_getD]

theorem nwRows_padding_one (M : Nat → Nat → Int) (p : Int) (t : List Nat) (k : Nat) :
    ∀ (s : List Nat) (i : Nat) (line : List Int),
      nwRows M p t (s ++ List.replicate k padding) i line = nwRows M p t s i line := by
  intro s
  induction s with
  | nil =>
    intro i line
    cases k with
    | zero => rfl
    | succ k => simp [nwRows, List.replicate_succ]
  | cons a rest ih =>
    intro i line
    by_cases ha : a = padding
    · simp only [List.cons_append, nwRows, if_pos ha]
    · simp only [List.cons_append, nwRows, if_neg ha]
      exact ih _ _

theorem nwInner_padding_all (a : Nat) (M : Nat → Nat → Int) (p : Int) :
    ∀ (k : Nat) (extra : List Int), extra.length = k → ∀ (done left : Int),
      nwInner a M p done left (List.replicate k padding) extra = List.replicate k left := by
  intro k
  induction k with
  | zero => intro extra he done left; rw [List.eq_nil_of_length_eq_zero he]; rfl
  | succ k ih =>
    intro extra he done left
    cases extra with
    | nil => simp at he
    | cons e es =>
      simp only [List.replicate_succ, nwInner, ne_eq, not_true_eq_false, ite_false,
        if_neg (by simp : ¬ padding ≠ padding)]
      rw [ih es (by simpa using he)]

theorem nwInner_padding_two (a : Nat) (M : Nat → Nat → Int) (p : Int) (k : Nat) :
    ∀ (two : List Nat) (oldT : List Int), two.length = oldT.length →
    ∀ (extra : List Int), extra.length = k → ∀ (done left : Int),
      nwInner a M p done left (two ++ List.replicate k padding) (oldT ++ extra)
        = nwInner a M p done left two oldT
          ++ List.replicate k ((nwInner a M p done left two oldT).getLastD left) := by
  intro two
  induction two with
  | nil =>
    intro oldT hlen extra he done left
    have hOT : oldT = [] := List.eq_nil_of_length_eq_zero (by simpa using hlen.symm)
    subst hOT
    simp only [List.nil_append]
    rw [nwInner_padding_all a M p k extra he]
    rfl
  | cons c cs ih =>
    intro oldT hlen extra he done left
    cases oldT with
    | nil => simp at hlen
    | cons o os =>
      simp only [List.cons_append, nwInner, List.append_eq]
      rw [ih os (by simpa using hlen) extra he]
      rw [List.getLastD_cons]

end Museqa

namespace Museqa

theorem nwRow_step_padding (M : Nat → Nat → Int) (p : Int) (t : List Nat) (k a : Nat) (i : Nat)
    (line extra : List Int) (hl : line.length = t.length + 1) (he : extra.length = k) :
    (((i : Int) + 1) * (-p)) :: nwInner a M p ((line ++ extra).headD 0) (((i : Int) + 1) * (-p))
        (t ++ List.replicate k padding) ((line ++ extra).tail)
      = ((((i : Int) + 1) * (-p)) :: nwInner a M p (line.headD 0) (((i : Int) + 1) * (-p)) t line.tail)
        ++ List.replicate k
            ((nwInner a M p (line.headD 0) (((i : Int) + 1) * (-p)) t line.tail).getLastD
              (((i : Int) + 1) * (-p))) := by
  cases line with
  | nil => simp at hl
  | cons x xs =>
    have hxs : t.length = xs.length := by simpa using hl.symm
    simp only [List.cons_append, List.headD_cons, List.tail_cons]
    rw [nwInner_padding_two a M p k t xs hxs extra he]

theorem nwRows_length (M : Nat → Nat → Int) (p : Int) (t : List Nat) :
    ∀ (s : List Nat) (i : Nat) (line : List Int), line.length = t.length + 1 →
      (nwRows M p t s i line).length = t.length + 1 := by
  intro s
  induction s with
  | nil => intro i line hl; exact hl
  | cons a rest ih =>
    intro i line hl
    by_cases ha : a = padding
    · simp only [nwRows, if_pos ha]; exact hl
    · simp only [nwRows, if_neg ha]
      refine ih _ _ ?_
      simp only [List.length_cons, nwInner_length, List.length_tail, hl]
      omega

theorem nwRows_padding_two (M : Nat → Nat → Int) (p : Int) (t : List Nat) (k : Nat) :
    ∀ (s : List Nat) (i : Nat) (line : List Int), line.length = t.length + 1 →
      nwRows M p (t ++ List.replicate k padding) s i (line ++ List.replicate k (line.getLastD 0))
        = nwRows M p t s i line ++ List.replicate k ((nwRows M p t s i line).getLastD 0) := by
  intro s
  induction s with
  | nil => intro i line hl; rfl
  | cons a rest ih =>
    intro i line hl
    by_cases ha : a = padding
    · simp only [nwRows, if_pos ha]
    · simp only [nwRows, if_neg ha]
      rw [nwRow_step_padding M p t k a i line (List.replicate k (line.getLastD 0)) hl
        (List.length_replicate k _)]
      rw [← List.getLastD_cons (0 : Int) (((i : Int) + 1) * (-p))]
      rw [ih (i + 1) ((((i : Int) + 1) * (-p))
        :: nwInner a M p (line.headD 0) (((i : Int) + 1) * (-p)) t line.tail)
        (by simp only [List.length_cons, nwInner_length, List.length_tail, hl]; omega)]

/-- C2 counterexample: appending a padding symbol to the second sequence does
change the score when the first sequence is empty; against the empty first
sequence, A-star scores -8 while its truncation A scores -4 under blosum62
with penalty 4. -/
theorem C2_padding_changes_empty_case :
    align_pair [] [0, 24] (scoring_table_get blosum62) 4
      ≠ align_pair [] [0] (scoring_table_get blosum62) 4 := by decide

/-- C2 amended: appending padding to the tail of the first sequence never
changes the score, and appending padding to the tail of the second sequence
preserves the score whenever the first sequence is nonempty and does not
start with the padding symbol. -/
theorem C2_padding_suffix (one two : List Nat) (M : Nat → Nat → Int) (p : Int) (k : Nat) :
    align_pair (one ++ List.replicate k padding) two M p = align_pair one two M p
    ∧ (∀ a rest, one = a :: rest → a ≠ padding →
        align_pair one (two ++ List.replicate k padding) M p = align_pair one two M p) := by
  constructor
  · unfold align_pair
    rw [nwRows_padding_one M p two k one 0]
  · intro a rest hone ha
    subst hone
    unfold align_pair
    simp only [List.length_append, List.length_replicate]
    have hrange : List.range (two.length + k + 1)
        = List.range (two.length + 1) ++ (List.range k).map (fun x => (two.length + 1) + x) := by
      rw [show two.length + k + 1 = (two.length + 1) + k from by omega, List.range_add]
    rw [hrange, List.map_append]
    simp only [nwRows, if_neg ha]
    rw [nwRow_step_padding M p two k a 0
      ((List.range (two.length + 1)).map (fun (j : Nat) => (j : Int) * (-p)))
      (((List.range k).map (fun x => (two.length + 1) + x)).map (fun (j : Nat) => (j : Int) * (-p)))
      (by simp) (by simp)]
    rw [← List.getLastD_cons (0 : Int) ((((0 : Nat) : Int) + 1) * (-p))]
    rw [nwRows_padding_two M p two k rest (0 + 1)
      (((((0 : Nat) : Int) + 1) * (-p)) :: nwInner a M p
        (((List.range (two.length + 1)).map (fun (j : Nat) => (j : Int) * (-p))).headD 0)
        ((((0 : Nat) : Int) + 1) * (-p)) two
        (((List.range (two.length + 1)).map (fun (j : Nat) => (j : Int) * (-p))).tail))
      (by simp only [List.length_cons, nwInner_length, List.length_tail]; simp)]
    cases k with
    | zero => simp
    | succ km =>
      set F := nwRows M p two rest (0 + 1)
        (((((0 : Nat) : Int) + 1) * (-p)) :: nwInner a M p
          (((List.range (two.length + 1)).map (fun (j : Nat) => (j : Int) * (-p))).headD 0)
          ((((0 : Nat) : Int) + 1) * (-p)) two
          (((List.range (two.length + 1)).map (fun (j : Nat) => (j : Int) * (-p))).tail)) with hFdef
      have hF : F.length = two.length + 1 := by
        rw [hFdef]
        refine nwRows_length M p two rest (0 + 1) _ ?_
        simp only [List.length_cons, nwInner_length, List.length_tail]
        simp
      rw [List.getD_append_right _ _ _ _ (by omega)]
      rw [List.getD_eq_getElem _ _ (by simp [List.length_replicate]; omega)]
      rw [List.getElem_replicate]
      rw [getLastD_eq_getD F 0, hF]
      simp

end Museqa

namespace Museqa

/-- C2 witness: concrete padded alignments evaluated through the theorem,
with its hypotheses discharged on explicit sequences. -/
theorem C2_padding_suffix_witness :
    align_pair ([0, 1] ++ List.replicate 2 padding) [2] (scoring_table_get blosum62) 4
      = align_pair [0, 1] [2] (scoring_table_get blosum62) 4
    ∧ align_pair [0, 1] ([2] ++ List.replicate 2 padding) (scoring_table_get blosum62) 4
      = align_pair [0, 1] [2] (scoring_table_get blosum62) 4 :=
  ⟨(C2_padding_suffix [0, 1] [2] (scoring_table_get blosum62) 4 2).1,
   (C2_padding_suffix [0, 1] [2] (scoring_table_get blosum62) 4 2).2 0 [1] rfl (by decide)⟩

end Museqa
